import Mathlib

/-!
Verification of the retargeting core of `crane.py`: the `Crane` class that maps
six tracked 3-D skeleton points (one limb's shoulder/elbow/hand driving a
mimicked robot arm, a second limb's driving the gripper) to clamped joint
angles and a boolean gripper command.

Real-valued scalars model the Python floats.  The geometry helpers imported by
`crane.py` from `vector_operations` are not part of the provided source tree;
they are modelled from the specification and marked as such.  Methods of the
`Crane` class are embedded as state-passing functions `Crane → args → Crane × result`
so that (absence of) mutation of the engine state is explicit; the Python
methods mutate a caller-supplied `angles` list, which is embedded as the list
argument plus the returned list.
-/

/-- A tracked skeleton point: the per-frame 3-D position delivered by the
tracking feed, with numeric x/y/z accessors. -/
structure Point where
  x : ℝ
  y : ℝ
  z : ℝ

/-- A 3-D displacement vector (the Python code passes plain 3-element lists). -/
structure Vec3 where
  x : ℝ
  y : ℝ
  z : ℝ

/-- Dot product of two 3-D vectors. -/
def vec_dot (a b : Vec3) : ℝ := a.x * b.x + a.y * b.y + a.z * b.z

/-- Euclidean norm of a 3-D vector. -/
noncomputable def vec_norm (v : Vec3) : ℝ := Real.sqrt (vec_dot v v)

/-- Modelled from the spec: `vectorFromPoints(tail, head)` returns
`head − tail` componentwise (source `make_vector_from_POINTS` in
`vector_operations`, which is not under the provided source tree). -/
def make_vector_from_POINTS (tail head : Point) : Vec3 :=
  ⟨head.x - tail.x, head.y - tail.y, head.z - tail.z⟩

/-- Modelled from the spec: `angleBetween(a, b)` returns the unsigned angle in
radians via `acos(dot(a,b) / (|a| |b|))`, clamped to the domain of `acos`
(source `angle_between_vectors` in `vector_operations`, not under the provided
source tree).  Mathlib's `Real.arccos` is total and already clamps its
argument to `[-1, 1]`. -/
noncomputable def angle_between_vectors (a b : Vec3) : ℝ :=
  Real.arccos (vec_dot a b / (vec_norm a * vec_norm b))

/-- Modelled from the spec: `projectOntoPlane(v, planeNormal, referenceAxis)`
removes the component of `v` along `planeNormal`, returning the in-plane
remainder (source `vector_projection_onto_plane` in `vector_operations`, not
under the provided source tree; the reference axis supplies the in-plane frame
and does not change the returned displacement in this model). -/
noncomputable def vector_projection_onto_plane (v n ref : Vec3) : Vec3 :=
  ⟨v.x - vec_dot v n / vec_dot n n * n.x,
   v.y - vec_dot v n / vec_dot n n * n.y,
   v.z - vec_dot v n / vec_dot n n * n.z⟩

/-- Modelled from the spec: `shortestVectorPointToLine(point, lineDir, otherDir,
lineOrigin)` computes the perpendicular from `point` to the infinite line
through `lineOrigin` along `lineDir` (source
`shortest_vector_from_point_to_vector` in `vector_operations`, not under the
provided source tree; `otherDir` supplies disambiguating context for degenerate
geometry and does not change the returned displacement in this model). -/
noncomputable def shortest_vector_from_point_to_vector
    (point : Point) (lineDir otherDir : Vec3) (lineOrigin : Point) : Vec3 :=
  ⟨(make_vector_from_POINTS lineOrigin point).x
      - vec_dot (make_vector_from_POINTS lineOrigin point) lineDir / vec_dot lineDir lineDir * lineDir.x,
   (make_vector_from_POINTS lineOrigin point).y
      - vec_dot (make_vector_from_POINTS lineOrigin point) lineDir / vec_dot lineDir lineDir * lineDir.y,
   (make_vector_from_POINTS lineOrigin point).z
      - vec_dot (make_vector_from_POINTS lineOrigin point) lineDir / vec_dot lineDir lineDir * lineDir.z⟩

/-- Modelled from the spec: the engine's ordered sequence of 7 joint-name
identifiers for the mimicked (right) arm, order {s0, s1, e0, e1, w0, w1, w2};
in the source this is `self.arm.joint_names()` from the external
`baxter_interface.Limb` collaborator. -/
def right_arm_joint_names : List String :=
  ["right_s0", "right_s1", "right_e0", "right_e1", "right_w0", "right_w1", "right_w2"]

/-- The engine state held by the `Crane` class across frames: the joint-name
ordering of the mimicked arm, the neutral position, the constant pose for the
fixed (left) arm, and the gripper activation bookkeeping.  The external
`baxter_interface` actuator handles are collaborators, not state. -/
structure Crane where
  arm_joint_names : List String
  neutral_position : List (String × ℝ)
  crane_l_angles : List (String × ℝ)
  gripper_state : Bool
  gripper_state_timer : ℤ

/-- Embedding of `Crane.__init__`: the neutral position zips the joint names
with fixed angles, and the fixed left-arm pose is a constant dictionary. -/
def Crane.init : Crane :=
  ⟨right_arm_joint_names,
   right_arm_joint_names.zip [0.00, 0.00, 1.57, 0.00, 0.00, 0.00, 0.00],
   [("left_s0", 0.35), ("left_s1", 0.00),
    ("left_e0", 0.00), ("left_e1", 1.57),
    ("left_w0", 0.00), ("left_w1", 0.00),
    ("left_w2", 0.00)],
   true,
   0⟩

/-- Embedding of `Crane.check_angles`: appends the (clamped where bounded)
seven angles to the caller's `angles` list.  The Python method mutates the
list in place and touches no engine state; here it returns the engine state
and the extended list. -/
noncomputable def check_angles (c : Crane) (s0 s1 e0 e1 w0 w1 w2 : ℝ)
    (angles : List ℝ) : Crane × List ℝ :=
  let angles := angles ++ [if -0.25 < s0 ∧ s0 < 1.60 then s0
                           else if -0.25 < s0 then 1.60 else -0.25]
  let angles := angles ++ [if -2.00 < s1 ∧ s1 < 0.90 then s1
                           else if -2.00 < s1 then 0.90 else -2.00]
  let angles := angles ++ [e0]
  let angles := angles ++ [if 0.10 < e1 ∧ e1 < 2.50 then e1
                           else if 0.10 < e1 then 2.50 else 0.10]
  (c, angles ++ [w0, w1, w2])

lemma clamp_chain_props (lo hi v X : ℝ)
    (hX : X = if lo < v ∧ v < hi then v else if lo < v then hi else lo)
    (hlohi : lo < hi) :
    lo ≤ X ∧ X ≤ hi ∧ (lo < v ∧ v < hi → X = v) ∧
      (hi ≤ v → X = hi) ∧ (v ≤ lo → X = lo) := by
  subst hX
  split_ifs with h1 h2
  · exact ⟨h1.1.le, h1.2.le, fun _ => rfl,
      fun h => absurd h1.2 (not_lt.mpr h), fun h => absurd h1.1 (not_lt.mpr h)⟩
  · exact ⟨hlohi.le, le_refl hi, fun h => absurd h h1,
      fun _ => rfl, fun h => absurd h2 (not_lt.mpr h)⟩
  · push_neg at h2
    refine ⟨le_refl lo, hlohi.le, fun h => absurd h h1, fun h => ?_, fun _ => rfl⟩
    exact absurd (lt_of_lt_of_le hlohi h) (not_lt.mpr h2)

/-- C1: for each bounded axis of `check_angles` — s0 with bounds
[-0.25, 1.60], s1 with [-2.00, 0.90], e1 with [0.10, 2.50] — the clamped
output lies in [lo, hi]; it equals the input whenever the input is strictly
inside the bounds; it equals hi whenever the input is at or above hi; and it
equals lo whenever the input is at or below lo. -/
theorem check_angles_clamps_into_bounds (c : Crane) (s0 s1 e0 e1 w0 w1 w2 : ℝ)
    (out : List ℝ) (hout : out = (check_angles c s0 s1 e0 e1 w0 w1 w2 []).snd) :
    (-0.25 ≤ out.getD 0 0 ∧ out.getD 0 0 ≤ 1.60 ∧
      (-0.25 < s0 ∧ s0 < 1.60 → out.getD 0 0 = s0) ∧
      (1.60 ≤ s0 → out.getD 0 0 = 1.60) ∧
      (s0 ≤ -0.25 → out.getD 0 0 = -0.25)) ∧
    (-2.00 ≤ out.getD 1 0 ∧ out.getD 1 0 ≤ 0.90 ∧
      (-2.00 < s1 ∧ s1 < 0.90 → out.getD 1 0 = s1) ∧
      (0.90 ≤ s1 → out.getD 1 0 = 0.90) ∧
      (s1 ≤ -2.00 → out.getD 1 0 = -2.00)) ∧
    (0.10 ≤ out.getD 3 0 ∧ out.getD 3 0 ≤ 2.50 ∧
      (0.10 < e1 ∧ e1 < 2.50 → out.getD 3 0 = e1) ∧
      (2.50 ≤ e1 → out.getD 3 0 = 2.50) ∧
      (e1 ≤ 0.10 → out.getD 3 0 = 0.10)) := by
  subst hout
  exact ⟨clamp_chain_props (-0.25) 1.60 s0 _ rfl (by norm_num),
         clamp_chain_props (-2.00) 0.90 s1 _ rfl (by norm_num),
         clamp_chain_props 0.10 2.50 e1 _ rfl (by norm_num)⟩

/-- Witness for C1 at concrete inputs: with s0 = 2 (at or above the 1.60
bound), s1 = 0.5 (strictly inside), e1 = 0 (at or below the 0.10 bound), the
clamped outputs are 1.60, 0.5 and 0.10, and the s0 output is within bounds. -/
theorem check_angles_clamps_into_bounds_witness :
    (-0.25 ≤ (check_angles Crane.init 2 0.5 0 0 (-1.57) 0.00 (-0.30) []).snd.getD 0 0 ∧
     (check_angles Crane.init 2 0.5 0 0 (-1.57) 0.00 (-0.30) []).snd.getD 0 0 = 1.60) ∧
    (check_angles Crane.init 2 0.5 0 0 (-1.57) 0.00 (-0.30) []).snd.getD 1 0 = 0.5 ∧
    (check_angles Crane.init 2 0.5 0 0 (-1.57) 0.00 (-0.30) []).snd.getD 3 0 = 0.10 := by
  have h := check_angles_clamps_into_bounds Crane.init 2 0.5 0 0 (-1.57) 0.00 (-0.30) _ rfl
  exact ⟨⟨h.1.1, h.1.2.2.2.1 (by norm_num)⟩,
    h.2.1.2.2.1 ⟨by norm_num, by norm_num⟩,
    h.2.2.2.2.2.2 (by norm_num)⟩

/-- The pre-clamp shoulder-rotation angle of `Crane.human_to_baxter` (source
block `# S0`): project the upper arm onto the horizontal plane with normal
[0, 0, -1] and reference [-1, 0, 0], take the angle between that projection
and [-1, 0, 0], and subtract pi/4. -/
noncomputable def crane_s0 (l_sh l_el : Point) : ℝ :=
  let l_upper_arm := make_vector_from_POINTS l_sh l_el
  let v_xz := vector_projection_onto_plane l_upper_arm ⟨0, 0, -1⟩ ⟨-1, 0, 0⟩
  angle_between_vectors v_xz ⟨-1, 0, 0⟩ - Real.pi / 4

/-- The pre-clamp shoulder-elevation angle of `Crane.human_to_baxter` (source
block `# S1`): the angle between the upper arm and its horizontal projection,
taken positive when the elbow's y-coordinate exceeds the shoulder's and
negated otherwise. -/
noncomputable def crane_s1 (l_sh l_el : Point) : ℝ :=
  let l_upper_arm := make_vector_from_POINTS l_sh l_el
  let v_xz := vector_projection_onto_plane l_upper_arm ⟨0, 0, -1⟩ ⟨-1, 0, 0⟩
  let theta := angle_between_vectors l_upper_arm v_xz
  if l_el.y > l_sh.y then theta else -theta

/-- The elbow-rotation angle of `Crane.human_to_baxter` (source block `# E0`):
the angle between the perpendicular from the hand to the upper-arm line and
the fixed up axis [0, 1, 0]. -/
noncomputable def crane_e0 (l_sh l_el l_ha : Point) : ℝ :=
  let l_upper_arm := make_vector_from_POINTS l_sh l_el
  let l_forearm := make_vector_from_POINTS l_el l_ha
  let n_upper_arm := shortest_vector_from_point_to_vector l_ha l_upper_arm l_forearm l_sh
  angle_between_vectors n_upper_arm ⟨0, 1, 0⟩

/-- The elbow-flexion angle of `Crane.human_to_baxter` (source block `# E1`):
the angle between the upper arm and the forearm. -/
noncomputable def crane_e1 (l_sh l_el l_ha : Point) : ℝ :=
  let l_upper_arm := make_vector_from_POINTS l_sh l_el
  let l_forearm := make_vector_from_POINTS l_el l_ha
  angle_between_vectors l_upper_arm l_forearm

/-- Embedding of `Crane.human_to_baxter`: computes the four tracked angles and
the three wrist constants, extends the caller's list through `check_angles`,
and decides the gripper from the second limb's bend angle (`True` means the
gripper is commanded closed).  The Python method mutates the list argument and
returns the Bool; here the extended list is returned alongside. -/
noncomputable def human_to_baxter (c : Crane) (l_sh l_el l_ha r_sh r_el r_ha : Point)
    (a : List ℝ) : Crane × (Bool × List ℝ) :=
  let s0 := crane_s0 l_sh l_el
  let s1 := crane_s1 l_sh l_el
  let e0 := crane_e0 l_sh l_el l_ha
  let e1 := crane_e1 l_sh l_el l_ha
  let w0 := -1.57
  let w1 := 0.00
  let w2 := -0.30
  let checked := check_angles c s0 s1 e0 e1 w0 w1 w2 a
  let r_upper_arm := make_vector_from_POINTS r_sh r_el
  let r_forearm := make_vector_from_POINTS r_el r_ha
  let theta := angle_between_vectors r_upper_arm r_forearm
  (checked.fst, (if theta > 0.8 then true else false, checked.snd))

/-- Lookup-faithful model of Python's `dict(a, **b)`: entries of `b` override
entries of `a`, so `b` is placed first for `List.lookup`'s first-match rule. -/
def dict_merge (a b : List (String × ℝ)) : List (String × ℝ) := b ++ a

/-- Embedding of `Crane.desired_joint_vals`: runs `human_to_baxter` on an
initially empty angle list, then indexes `angles[0]`..`angles[6]` to zip with
the arm's joint names and merges with the fixed left-arm dictionary.  Python
list indexing raises when out of bounds, embedded as `Option`; the gripper
actuation side effect is returned as the Bool component. -/
noncomputable def desired_joint_vals (c : Crane) (l_sh l_el l_ha r_sh r_el r_ha : Point) :
    Crane × Option (List (String × ℝ) × Bool) :=
  let res := human_to_baxter c l_sh l_el l_ha r_sh r_el r_ha []
  let c1 := res.fst
  let grip := res.snd.fst
  let angles := res.snd.snd
  match angles.get? 0, angles.get? 1, angles.get? 2, angles.get? 3,
        angles.get? 4, angles.get? 5, angles.get? 6 with
  | some a0, some a1, some a2, some a3, some a4, some a5, some a6 =>
      (c1, some (dict_merge c1.crane_l_angles
                  (c1.arm_joint_names.zip [a0, a1, a2, a3, a4, a5, a6]), grip))
  | _, _, _, _, _, _, _ => (c1, none)

/-- A Cartesian end-effector pose, the dictionary returned by
`Crane.desired_pose_vals`. -/
structure Pose where
  x : ℝ
  y : ℝ
  z : ℝ
  roll : ℝ
  pitch : ℝ
  yaw : ℝ

/-- Embedding of `Crane.desired_pose_vals` (the alternate pose mode): computes
the anatomical arm length, then builds the target pose from hand and torso
with the hardcoded `scaling = 1.0`, fixed offsets and fixed orientation, and
decides the gripper from the second limb's bend angle (returned as the Bool
component of the result). -/
noncomputable def desired_pose_vals (c : Crane)
    (l_sh l_el l_ha r_sh r_el r_ha torso : Point) : Crane × (Pose × Bool) :=
  let arm_length := Real.sqrt ((l_sh.x - l_el.x) ^ 2 + (l_sh.y - l_el.y) ^ 2 +
                      (l_sh.z - l_el.z) ^ 2) +
                    Real.sqrt ((l_el.x - l_ha.x) ^ 2 + (l_el.y - l_ha.y) ^ 2 +
                      (l_el.z - l_ha.z) ^ 2)
  let RJ_ARM_LENGTH := 41 * 2.54 / 100.0
  let scaling := 1.0
  let x := (torso.z - l_ha.z) * scaling + 0.2
  let y := (l_ha.x - torso.x) * scaling
  let z := (torso.y - l_ha.y) * scaling - 0.3
  let roll := 0
  let pitch := Real.pi
  let yaw := 0
  let r_upper_arm := make_vector_from_POINTS r_sh r_el
  let r_forearm := make_vector_from_POINTS r_el r_ha
  let theta := angle_between_vectors r_upper_arm r_forearm
  (c, (⟨x, y, z, roll, pitch, yaw⟩, if theta > 0.8 then true else false))

/-- C2: the gripper decision of `human_to_baxter` is `true` (close) if and
only if the angle between the second limb's upper arm and forearm is strictly
greater than 0.8 radians; in particular an angle of exactly 0.8 yields open. -/
theorem human_to_baxter_gripper_iff (c : Crane) (l_sh l_el l_ha r_sh r_el r_ha : Point)
    (a : List ℝ) :
    (human_to_baxter c l_sh l_el l_ha r_sh r_el r_ha a).snd.fst = true ↔
      angle_between_vectors (make_vector_from_POINTS r_sh r_el)
        (make_vector_from_POINTS r_el r_ha) > 0.8 := by
  by_cases h : angle_between_vectors (make_vector_from_POINTS r_sh r_el)
      (make_vector_from_POINTS r_el r_ha) > 0.8
  · simp [human_to_baxter, h]
  · simp [human_to_baxter, h]

/-- C3: the mimicked-arm portion of the dictionary returned by
`desired_joint_vals` is exactly the seven-element sequence
[clamped s0, clamped s1, e0 passed through unclamped, clamped e1,
-1.57, 0.00, -0.30] zipped positionally with the engine's joint-name order,
where the clamped entries are the corresponding outputs of the clamping step
`check_angles` and e0 is the computed elbow-rotation angle unmodified. -/
theorem desired_joint_vals_mimicked_portion (c : Crane)
    (l_sh l_el l_ha r_sh r_el r_ha : Point) :
    ((desired_joint_vals c l_sh l_el l_ha r_sh r_el r_ha).snd).map Prod.fst =
      some (dict_merge c.crane_l_angles
        (c.arm_joint_names.zip
          [(check_angles c (crane_s0 l_sh l_el) (crane_s1 l_sh l_el)
              (crane_e0 l_sh l_el l_ha) (crane_e1 l_sh l_el l_ha)
              (-1.57) 0.00 (-0.30) []).snd.getD 0 0,
           (check_angles c (crane_s0 l_sh l_el) (crane_s1 l_sh l_el)
              (crane_e0 l_sh l_el l_ha) (crane_e1 l_sh l_el l_ha)
              (-1.57) 0.00 (-0.30) []).snd.getD 1 0,
           crane_e0 l_sh l_el l_ha,
           (check_angles c (crane_s0 l_sh l_el) (crane_s1 l_sh l_el)
              (crane_e0 l_sh l_el l_ha) (crane_e1 l_sh l_el l_ha)
              (-1.57) 0.00 (-0.30) []).snd.getD 3 0,
           -1.57, 0.00, -0.30])) := rfl

/-- C4: for every input, the fixed (left) arm entries of the dictionary
returned by `desired_joint_vals` on the engine as constructed equal the
constant pose set at construction, independent of the input points. -/
theorem desired_joint_vals_fixed_arm_constant (l_sh l_el l_ha r_sh r_el r_ha : Point) :
    ((((desired_joint_vals Crane.init l_sh l_el l_ha r_sh r_el r_ha).snd).map
        Prod.fst).getD []).lookup "left_s0" = some 0.35 ∧
    ((((desired_joint_vals Crane.init l_sh l_el l_ha r_sh r_el r_ha).snd).map
        Prod.fst).getD []).lookup "left_s1" = some 0.00 ∧
    ((((desired_joint_vals Crane.init l_sh l_el l_ha r_sh r_el r_ha).snd).map
        Prod.fst).getD []).lookup "left_e0" = some 0.00 ∧
    ((((desired_joint_vals Crane.init l_sh l_el l_ha r_sh r_el r_ha).snd).map
        Prod.fst).getD []).lookup "left_e1" = some 1.57 ∧
    ((((desired_joint_vals Crane.init l_sh l_el l_ha r_sh r_el r_ha).snd).map
        Prod.fst).getD []).lookup "left_w0" = some 0.00 ∧
    ((((desired_joint_vals Crane.init l_sh l_el l_ha r_sh r_el r_ha).snd).map
        Prod.fst).getD []).lookup "left_w1" = some 0.00 ∧
    ((((desired_joint_vals Crane.init l_sh l_el l_ha r_sh r_el r_ha).snd).map
        Prod.fst).getD []).lookup "left_w2" = some 0.00 :=
  ⟨rfl, rfl, rfl, rfl, rfl, rfl, rfl⟩

/-- C5: the pre-clamp shoulder-elevation angle is the positive angle between
the upper arm and its horizontal projection when the elbow's y-coordinate
strictly exceeds the shoulder's, and the negation of that angle otherwise. -/
theorem crane_s1_sign (l_sh l_el : Point) :
    (l_el.y > l_sh.y →
      crane_s1 l_sh l_el =
        angle_between_vectors (make_vector_from_POINTS l_sh l_el)
          (vector_projection_onto_plane (make_vector_from_POINTS l_sh l_el)
            ⟨0, 0, -1⟩ ⟨-1, 0, 0⟩)) ∧
    (l_el.y ≤ l_sh.y →
      crane_s1 l_sh l_el =
        -angle_between_vectors (make_vector_from_POINTS l_sh l_el)
          (vector_projection_onto_plane (make_vector_from_POINTS l_sh l_el)
            ⟨0, 0, -1⟩ ⟨-1, 0, 0⟩)) := by
  constructor
  · intro h
    simp only [crane_s1]
    rw [if_pos h]
  · intro h
    simp only [crane_s1]
    rw [if_neg (not_lt.mpr h)]

/-- Witness for C5 at concrete points: with shoulder (0,0,0) and elbow
(0,1,0) the elbow is raised above the shoulder, so the positive branch
applies. -/
theorem crane_s1_sign_witness :
    ((⟨0, 1, 0⟩ : Point).y > (⟨0, 0, 0⟩ : Point).y) ∧
      crane_s1 ⟨0, 0, 0⟩ ⟨0, 1, 0⟩ =
        angle_between_vectors (make_vector_from_POINTS ⟨0, 0, 0⟩ ⟨0, 1, 0⟩)
          (vector_projection_onto_plane (make_vector_from_POINTS ⟨0, 0, 0⟩ ⟨0, 1, 0⟩)
            ⟨0, 0, -1⟩ ⟨-1, 0, 0⟩) :=
  ⟨by norm_num, (crane_s1_sign ⟨0, 0, 0⟩ ⟨0, 1, 0⟩).1 (by norm_num)⟩

/-- C6: the pre-clamp shoulder-rotation angle equals the angle between the
horizontal projection of the upper arm (plane normal [0,0,-1], reference
[-1,0,0]) and the forward axis [-1,0,0], minus pi/4. -/
theorem crane_s0_formula (l_sh l_el : Point) :
    crane_s0 l_sh l_el =
      angle_between_vectors
        (vector_projection_onto_plane (make_vector_from_POINTS l_sh l_el)
          ⟨0, 0, -1⟩ ⟨-1, 0, 0⟩)
        ⟨-1, 0, 0⟩ - Real.pi / 4 := rfl

/-- C7: the gripper decision of `human_to_baxter` depends only on the second
limb's three points — two runs with identical right-limb points but arbitrary
engine states, mimicked-limb points and angle lists agree on the gripper. -/
theorem gripper_depends_only_on_second_limb (c c2 : Crane)
    (l_sh l_el l_ha m_sh m_el m_ha r_sh r_el r_ha : Point) (a b : List ℝ) :
    (human_to_baxter c l_sh l_el l_ha r_sh r_el r_ha a).snd.fst =
      (human_to_baxter c2 m_sh m_el m_ha r_sh r_el r_ha b).snd.fst := rfl

/-- C8: the pose returned by the alternate pose mode `desired_pose_vals` is
x = (torso.z − hand.z)·1.0 + 0.2, y = (hand.x − torso.x)·1.0,
z = (torso.y − hand.y)·1.0 − 0.3, roll = 0, pitch = pi, yaw = 0; the scale
factor is the constant 1.0 and the computed anatomical arm length (the only
use of the shoulder and elbow points) does not affect the result. -/
theorem desired_pose_vals_formula (c : Crane)
    (l_sh l_el l_ha r_sh r_el r_ha torso : Point) :
    (desired_pose_vals c l_sh l_el l_ha r_sh r_el r_ha torso).snd.fst =
      ⟨(torso.z - l_ha.z) * 1.0 + 0.2, (l_ha.x - torso.x) * 1.0,
       (torso.y - l_ha.y) * 1.0 - 0.3, 0, Real.pi, 0⟩ := rfl

/-- C9: every per-frame operation (`check_angles`, `human_to_baxter`,
`desired_joint_vals`, `desired_pose_vals`) leaves the engine-held
configuration — the fixed left-arm pose, the neutral position and the
joint-name ordering — unchanged. -/
theorem engine_state_unchanged (c : Crane)
    (l_sh l_el l_ha r_sh r_el r_ha torso : Point)
    (s0 s1 e0 e1 w0 w1 w2 : ℝ) (a : List ℝ) :
    ((check_angles c s0 s1 e0 e1 w0 w1 w2 a).fst.crane_l_angles = c.crane_l_angles ∧
     (check_angles c s0 s1 e0 e1 w0 w1 w2 a).fst.neutral_position = c.neutral_position ∧
     (check_angles c s0 s1 e0 e1 w0 w1 w2 a).fst.arm_joint_names = c.arm_joint_names) ∧
    ((human_to_baxter c l_sh l_el l_ha r_sh r_el r_ha a).fst.crane_l_angles = c.crane_l_angles ∧
     (human_to_baxter c l_sh l_el l_ha r_sh r_el r_ha a).fst.neutral_position = c.neutral_position ∧
     (human_to_baxter c l_sh l_el l_ha r_sh r_el r_ha a).fst.arm_joint_names = c.arm_joint_names) ∧
    ((desired_joint_vals c l_sh l_el l_ha r_sh r_el r_ha).fst.crane_l_angles = c.crane_l_angles ∧
     (desired_joint_vals c l_sh l_el l_ha r_sh r_el r_ha).fst.neutral_position = c.neutral_position ∧
     (desired_joint_vals c l_sh l_el l_ha r_sh r_el r_ha).fst.arm_joint_names = c.arm_joint_names) ∧
    ((desired_pose_vals c l_sh l_el l_ha r_sh r_el r_ha torso).fst.crane_l_angles = c.crane_l_angles ∧
     (desired_pose_vals c l_sh l_el l_ha r_sh r_el r_ha torso).fst.neutral_position = c.neutral_position ∧
     (desired_pose_vals c l_sh l_el l_ha r_sh r_el r_ha torso).fst.arm_joint_names = c.arm_joint_names) :=
  ⟨⟨rfl, rfl, rfl⟩, ⟨rfl, rfl, rfl⟩, ⟨rfl, rfl, rfl⟩, ⟨rfl, rfl, rfl⟩⟩

/-- C10: `check_angles` appends exactly seven elements to the list it is
given, and consequently `desired_joint_vals`, which starts from the empty
list, succeeds: its `Option`-valued indexing of `angles[0]`..`angles[6]`
never fails under this call pattern. -/
theorem check_angles_appends_seven (c : Crane) (s0 s1 e0 e1 w0 w1 w2 : ℝ)
    (a : List ℝ) (l_sh l_el l_ha r_sh r_el r_ha : Point) :
    ((check_angles c s0 s1 e0 e1 w0 w1 w2 a).snd).length = a.length + 7 ∧
    ((desired_joint_vals c l_sh l_el l_ha r_sh r_el r_ha).snd).isSome = true := by
  constructor
  · simp only [check_angles, List.length_append, List.length_cons, List.length_nil]
  · rfl
